import Mathlib

/-
Shallow embedding of the asynchronous video-processing pipeline implemented in
src/utils/videoProcessor.js (class VideoProcessor).

Modelling conventions:
* JS numbers are modelled as rationals (ℚ).  Every constant appearing in the
  decision policy is an exact decimal, and the one claim that touches a rounded
  floating-point product (confidence 0.8*1.1 rounded by toFixed(3)) agrees with
  the rational computation after rounding, so the idealization is faithful at
  the granularity of the claims.
* The external world (ffprobe, ffmpeg frame extraction, the Hugging Face
  classifier, Math.random) is an explicit environment value: each external
  call's outcome is an input of the embedded function.
* Socket.io broadcasts are collected as an ordered event trace; document-store
  (Mongoose findByIdAndUpdate) calls are collected as an ordered list of
  update records, one per call, recording exactly the fields the call passes.
  The store itself is modelled as reliable (updates never fail), matching the
  spec's description of the document store as an out-of-scope reliable
  collaborator.
* Human-readable strings that only carry data already present in structured
  form (stage texts, detected-issue messages) are abstracted to their
  structured content (a Stage tag, a frame index plus score); their exact
  formatting is not the subject of any claim.
-/

namespace VideoProc

/-- JS Math.round on the nonnegative arguments used by the pipeline:
round half up, i.e. floor (x + 1/2). -/
def jsRound (q : ℚ) : ℤ := ⌊q + 1/2⌋

/-- JS Number.prototype.toFixed(d) followed by parseFloat, on the nonnegative
values used by the pipeline: rounding to d decimal places (half up). -/
def toFixedVal (d : ℕ) (q : ℚ) : ℚ := (jsRound (q * 10 ^ d) : ℚ) / 10 ^ d

/-- Boolean test: the first list is an initial segment of the second.
Helper for the substring test below. -/
def leadMatchB : List Char → List Char → Bool
  | [], _ => true
  | _ :: _, [] => false
  | a :: as, b :: bs => a == b && leadMatchB as bs

/-- Boolean substring test on char lists. -/
def substrB (pat : List Char) : List Char → Bool
  | [] => leadMatchB pat []
  | b :: bs => leadMatchB pat (b :: bs) || substrB pat bs

/-- Models JS String.prototype.includes. -/
def includesB (s pat : String) : Bool := substrB pat.data s.data

/-- Models JS String.prototype.toLowerCase on one ASCII character (all
classifier labels handled by the source are ASCII). -/
def lowerChar (c : Char) : Char :=
  if c.isUpper then Char.ofNat (c.toNat + 32) else c

/-- Models JS String.prototype.toLowerCase on the ASCII label strings. -/
def lowerStr (s : String) : String := ⟨s.data.map lowerChar⟩

/-- Raw response of the external image classifier for one frame
(videoProcessor.js lines 200-232 distinguish these shapes):
an array of label/score pairs, a flat label→value object (values that are not
numbers are modelled as none, mirroring the typeof check), or anything else. -/
inductive RawResult
  | arr (items : List (String × ℚ))
  | obj (entries : List (String × Option ℚ))
  | other

/-- One step of the array-shaped normalization loop
(videoProcessor.js lines 203-221): accumulator is (nsfwScore, normalScore). -/
def arrStep (acc : ℚ × ℚ) (item : String × ℚ) : ℚ × ℚ :=
  let label := lowerStr item.1
  if includesB label "nsfw" || includesB label "unsafe" || includesB label "porn" ||
     includesB label "adult" || includesB label "sexual" || includesB label "explicit" ||
     includesB label "nude" || includesB label "erotic" then
    (max acc.1 item.2, acc.2)
  else if includesB label "normal" || includesB label "sfw" || includesB label "safe" ||
          includesB label "neutral" || includesB label "clean" || includesB label "appropriate" then
    (acc.1, max acc.2 item.2)
  else if includesB label "bikini" || includesB label "underwear" || includesB label "swimsuit" then
    (max acc.1 (item.2 * (1/2)), acc.2)
  else acc

/-- One step of the object-shaped normalization loop
(videoProcessor.js lines 224-231).  Note the keyword sets here are the ones
the source actually tests in this branch. -/
def objStep (acc : ℚ × ℚ) (entry : String × Option ℚ) : ℚ × ℚ :=
  let label := lowerStr entry.1
  let v : ℚ := match entry.2 with
    | some q => q
    | none => 0
  if includesB label "nsfw" || includesB label "unsafe" || includesB label "sexual" then
    (max acc.1 v, acc.2)
  else if includesB label "safe" || includesB label "normal" then
    (acc.1, max acc.2 v)
  else acc

/-- Per-frame normalization of a raw classifier result into
(nsfwScore, normalScore), including the conservative assume-safe default
normalScore = 0.95 when neither score was populated
(videoProcessor.js lines 197-238). -/
def normalizeScores (r : RawResult) : ℚ × ℚ :=
  let p : ℚ × ℚ := match r with
    | .arr items => items.foldl arrStep (0, 0)
    | .obj entries => entries.foldl objStep (0, 0)
    | .other => (0, 0)
  if p.1 = 0 ∧ p.2 = 0 then (0, 95/100) else p

/-- Structured content of a detected-issue message. -/
inductive Issue
  | frameIssue (index : ℕ) (nsfwScore : ℚ)
  | mockIssue
deriving DecidableEq

/-- Mutable per-run aggregation state of the frame-classification loop
(videoProcessor.js lines 168-171). -/
structure LoopState where
  flaggedFrames : ℕ
  totalNsfwScore : ℚ
  detectedIssues : List Issue
  apiSuccessCount : ℕ
deriving DecidableEq

def initState : LoopState := ⟨0, 0, [], 0⟩

/-- Effect of one loop iteration on the aggregation state
(videoProcessor.js lines 184-253): none models a failed classifier call
(caught, logged, skipped), some r a successful call returning r. -/
def stepFrame (st : LoopState) (i : ℕ) (res : Option RawResult) : LoopState :=
  match res with
  | none => st
  | some r =>
    let ns := (normalizeScores r).1
    let st1 : LoopState :=
      { st with apiSuccessCount := st.apiSuccessCount + 1,
                totalNsfwScore := st.totalNsfwScore + ns }
    if ns > 3/5 then
      { st1 with flaggedFrames := st1.flaggedFrames + 1,
                 detectedIssues := st1.detectedIssues ++ [Issue.frameIssue (i + 1) ns] }
    else st1

/-- The whole classification loop, indexed as the source's i = 0,1,... . -/
def runFrames : ℕ → LoopState → List (Option RawResult) → LoopState
  | _, st, [] => st
  | i, st, r :: rest => runFrames (i + 1) (stepFrame st i r) rest

inductive Flag
  | safe
  | flagged
deriving DecidableEq

/-- Verdict details object (videoProcessor.js lines 293-303); averageNsfwScore
is stored after toFixed(4) rounding, as in the source. -/
structure VerdictDetails where
  totalFramesAnalyzed : ℕ
  successfulAnalyses : ℕ
  flaggedFrames : ℕ
  averageNsfwScore : ℚ
deriving DecidableEq

/-- Verdict returned by analyzeSensitivity / analyzeSensitivityMock.  The mock
returns no details object, hence the Option. -/
structure Verdict where
  sensitivityFlag : Flag
  confidence : ℚ
  detectedIssues : List Issue
  details : Option VerdictDetails
deriving DecidableEq

/-- Final decision and confidence computation of the real classification path
(videoProcessor.js lines 268-304), applied when apiSuccessCount is not 0. -/
def decideVerdict (st : LoopState) (numFrames : ℕ) : Verdict :=
  let averageNsfwScore := st.totalNsfwScore / (st.apiSuccessCount : ℚ)
  let details : VerdictDetails :=
    ⟨numFrames, st.apiSuccessCount, st.flaggedFrames, toFixedVal 4 averageNsfwScore⟩
  if st.flaggedFrames = 0 ∧ averageNsfwScore < 1/2 then
    { sensitivityFlag := .safe
      confidence := toFixedVal 3 (min ((1 - averageNsfwScore) * (11/10)) (99/100))
      detectedIssues := []
      details := some details }
  else
    { sensitivityFlag := .flagged
      confidence := toFixedVal 3 (min (averageNsfwScore * (11/10)) (99/100))
      detectedIssues := st.detectedIssues
      details := some details }

/-- Verdict of analyzeSensitivityMock (videoProcessor.js lines 333-341):
r1 and r2 are the two successive Math.random() results, each in [0, 1). -/
def mockVerdict (r1 r2 : ℚ) : Verdict :=
  if r1 > 3/10 then
    { sensitivityFlag := .safe
      confidence := r2 * (3/10) + 7/10
      detectedIssues := []
      details := none }
  else
    { sensitivityFlag := .flagged
      confidence := r2 * (3/10) + 7/10
      detectedIssues := [Issue.mockIssue]
      details := none }

/-- Stage descriptor of a progress broadcast (abstraction of the stage
message strings of the source). -/
inductive Stage
  | starting
  | extractingMetadata
  | extractingFrames
  | analyzingFrame (i n : ℕ)
  | mockAnalyzing
  | mockFinalizing
  | finalizing
deriving DecidableEq

/-- One Socket.io broadcast of the pipeline: a video-processing-progress
event with its progress value, the video-processing-complete event, or the
video-processing-error event. -/
inductive Event
  | progress (value : ℤ) (stage : Stage)
  | complete (v : Verdict)
  | failure
deriving DecidableEq

/-- Progress broadcasts of analyzeSensitivityMock (videoProcessor.js lines
318-330): 10, 20, ..., 100, stage text switching at 50. -/
def mockEvents : List Event :=
  (List.range 10).map (fun k =>
    Event.progress (10 * ((k : ℤ) + 1))
      (if 10 * ((k : ℤ) + 1) < 50 then .mockAnalyzing else .mockFinalizing))

/-- Progress broadcasts of the frame loop (videoProcessor.js lines 174-182):
Math.round(30 + ((i+1)/n)*60) for i = 0..n-1. -/
def loopEvents (n : ℕ) : List Event :=
  (List.range n).map (fun i =>
    Event.progress (jsRound (30 + (((i : ℕ) + 1 : ℚ) / (n : ℚ)) * 60))
      (.analyzingFrame (i + 1) n))

/-- Environment of one processVideo run: outcome of every external call.
frameFiles none models a frame-extraction rejection; some frames models a
successful extraction, with each list element the outcome of that frame's
classifier call (none = the call threw). r1, r2 are the Math.random() results
used by the mock path, in order. -/
structure Env where
  hasApiKey : Bool
  probeOk : Bool
  frameFiles : Option (List (Option RawResult))
  r1 : ℚ
  r2 : ℚ

/-- analyzeSensitivity (videoProcessor.js lines 157-313), returning the events
it broadcasts and the verdict it resolves with.  The 25% event is emitted by
extractFrames before the extraction work, so it appears even when extraction
then fails; a failing extraction is caught by the outer try and falls back to
the mock, as does a loop with zero successful classifications; a missing API
key goes straight to the mock. -/
def analyzeSensitivity (env : Env) : List Event × Verdict :=
  if env.hasApiKey = false then
    (mockEvents, mockVerdict env.r1 env.r2)
  else
    match env.frameFiles with
    | none => (Event.progress 25 .extractingFrames :: mockEvents, mockVerdict env.r1 env.r2)
    | some frames =>
      let evs := Event.progress 25 .extractingFrames :: loopEvents frames.length
      let st := runFrames 0 initState frames
      if st.apiSuccessCount = 0 then
        (evs ++ mockEvents, mockVerdict env.r1 env.r2)
      else
        (evs, decideVerdict st frames.length)

inductive Status
  | pending
  | processing
  | completed
  | failed
deriving DecidableEq

/-- One findByIdAndUpdate call: exactly the fields passed by that call.
Fields whose concrete value no claim inspects (metadata, duration,
processedAt, errorMessage) are recorded as written/not-written. -/
structure UpdateRec where
  status : Option Status := none
  processProgress : Option ℕ := none
  sensitivityFlag : Option Flag := none
  metadataSet : Bool := false
  durationSet : Bool := false
  processedAtSet : Bool := false
  errorMessageSet : Bool := false
deriving DecidableEq

/-- Result of one processVideo run: the ordered broadcast trace, the ordered
list of document-store updates, and the verdict (some on the success path,
none when the run fails). -/
structure RunResult where
  events : List Event
  updates : List UpdateRec
  verdict : Option Verdict

/-- processVideo (videoProcessor.js lines 348-435).  The status:'processing'
update and the 0%/20% broadcasts precede the metadata probe; a probe failure
is caught by the catch block, which persists status failed plus errorMessage
and broadcasts the error event; on success the sensitivity result is followed
by the 100% broadcast, the completed update and the completion event. -/
def processVideo (env : Env) : RunResult :=
  let u1 : UpdateRec := { status := some .processing, processProgress := some 0 }
  let startEvents := [Event.progress 0 .starting, Event.progress 20 .extractingMetadata]
  if env.probeOk = false then
    { events := startEvents ++ [Event.failure]
      updates := [u1, { status := some .failed, errorMessageSet := true }]
      verdict := none }
  else
    let sens := analyzeSensitivity env
    { events := startEvents ++ sens.1 ++
        [Event.progress 100 .finalizing, Event.complete sens.2]
      updates := [u1,
        { status := some .completed
          processProgress := some 100
          sensitivityFlag := some sens.2.sensitivityFlag
          metadataSet := true
          durationSet := true
          processedAtSet := true }]
      verdict := some sens.2 }

/-! ## Metadata extraction (getVideoMetadata, videoProcessor.js lines 66-84) -/

/-- Value of the JS expression eval(r_frame_rate): a number, NaN, or a thrown
exception. -/
inductive EvalResult
  | num (value : ℚ)
  | nan
  | thrown
deriving DecidableEq

/-- Splits a char list at every '/' (the shape of ffprobe r_frame_rate). -/
def splitSlash : List Char → List (List Char)
  | [] => [[]]
  | c :: rest =>
    let r := splitSlash rest
    if c = '/' then [] :: r
    else match r with
      | [] => [[c]]
      | g :: gs => (c :: g) :: gs

/-- Parses a nonempty all-digit char list as a decimal natural. -/
def parseNatL (cs : List Char) : Option ℕ :=
  if cs.isEmpty then none
  else cs.foldl (fun acc c =>
    match acc with
    | none => none
    | some n => if c.isDigit then some (10 * n + (c.toNat - 48)) else none) (some 0)

/-- Models the JS eval builtin on the r_frame_rate strings ffprobe reports:
a decimal integer evaluates to itself, a quotient of two decimal integers
evaluates to the numeric division (NaN when the denominator is 0, as in JS
0/0), and any other string makes eval throw (for the malformed fields that
actually occur, such as the literal string N/A, the JS engine raises a
SyntaxError or ReferenceError). -/
def jsEval (s : String) : EvalResult :=
  match splitSlash s.data with
  | [a] =>
    match parseNatL a with
    | some n => .num (n : ℚ)
    | none => .thrown
  | [a, b] =>
    match parseNatL a, parseNatL b with
    | some n, some d => if d = 0 then .nan else .num ((n : ℚ) / (d : ℚ))
    | _, _ => .thrown
  | _ => .thrown

/-- JS (x || y) where x is an optional string: undefined and the empty string
are falsy, so they are replaced by y = the one-char string 0. -/
def orZeroStr (s : Option String) : String :=
  match s with
  | none => "0"
  | some str => if str = "" then "0" else str

/-- One stream object of an ffprobe report (only the fields the source
reads). -/
structure ProbeStream where
  codec_type : String
  width : Option ℕ
  height : Option ℕ
  r_frame_rate : Option String
  codec_name : Option String

/-- The ffprobe report (only the fields the source reads). -/
structure ProbeData where
  streams : List ProbeStream
  duration : Option ℚ
  bit_rate : Option ℕ

/-- Metadata record resolved by getVideoMetadata. -/
structure VideoMetadata where
  duration : Option ℚ
  width : Option ℕ
  height : Option ℕ
  fps : EvalResult
  bitrate : Option ℕ
  codec : Option String

/-- getVideoMetadata's success continuation (videoProcessor.js lines 72-80):
picks the first video stream and builds the metadata record; fps is
eval(videoStream?.r_frame_rate || zero-string). -/
def getVideoMetadata (md : ProbeData) : VideoMetadata :=
  let videoStream := md.streams.find? (fun s => s.codec_type == "video")
  { duration := md.duration
    width := videoStream.bind (fun s => s.width)
    height := videoStream.bind (fun s => s.height)
    fps := jsEval (orZeroStr (videoStream.bind (fun s => s.r_frame_rate)))
    bitrate := md.bit_rate
    codec := videoStream.bind (fun s => s.codec_name) }

/-! ## Observables used by the claims -/

/-- The progress values of a trace, in broadcast order. -/
def progressVals (events : List Event) : List ℤ :=
  events.filterMap (fun e =>
    match e with
    | .progress p _ => some p
    | _ => none)

/-- Terminal events: completion or failure broadcast. -/
def isTerminal : Event → Bool
  | .complete _ => true
  | .failure => true
  | .progress _ _ => false

/-- Boolean check that a list of integers is non-decreasing. -/
def nonDecB : List ℤ → Bool
  | [] => true
  | [_] => true
  | a :: b :: rest => decide (a ≤ b) && nonDecB (b :: rest)

/-- The trace ends with an event satisfying isTerminal. -/
def endsTerminalB (evs : List Event) : Bool :=
  match evs.getLast? with
  | some e => isTerminal e
  | none => false

/-- The sequence of values written to the persisted processProgress field,
in update order. -/
def progressWrites (r : RunResult) : List ℕ :=
  r.updates.filterMap (fun u => u.processProgress)

/-- The last persisted status of the run. -/
def finalStatus (r : RunResult) : Option Status :=
  (r.updates.filterMap (fun u => u.status)).getLast?

end VideoProc

namespace VideoProc

/-! arithmetic helpers -/

theorem jsRound_mono {a b : ℚ} (h : a ≤ b) : jsRound a ≤ jsRound b :=
  Int.floor_mono (by linarith)

theorem le_jsRound {z : ℤ} {q : ℚ} (h : (z : ℚ) ≤ q + 1/2) : z ≤ jsRound q :=
  Int.le_floor.mpr h

theorem jsRound_le {z : ℤ} {q : ℚ} (h : q + 1/2 < (z : ℚ) + 1) : jsRound q ≤ z := by
  have h2 : jsRound q < z + 1 := Int.floor_lt.mpr (by push_cast; linarith)
  omega

theorem toFixedVal_nonneg {q : ℚ} (d : ℕ) (h : 0 ≤ q) : 0 ≤ toFixedVal d q := by
  unfold toFixedVal
  apply div_nonneg _ (by positivity)
  have h1 : (0 : ℤ) ≤ jsRound (q * 10 ^ d) := le_jsRound (by push_cast; positivity)
  exact_mod_cast h1

theorem toFixedVal3_le {q : ℚ} (h : q ≤ 99/100) : toFixedVal 3 q ≤ 99/100 := by
  unfold toFixedVal
  have h1 : jsRound (q * 10 ^ 3) ≤ 990 := jsRound_le (by push_cast; linarith)
  rw [div_le_iff₀ (by norm_num)]
  calc ((jsRound (q * 10 ^ 3) : ℤ) : ℚ) ≤ ((990 : ℤ) : ℚ) := by exact_mod_cast h1
    _ ≤ 99/100 * 10 ^ 3 := by norm_num

/-! score nonnegativity -/

theorem arrStep_fst_le (acc : ℚ × ℚ) (x : String × ℚ) : acc.1 ≤ (arrStep acc x).1 := by
  unfold arrStep
  dsimp only
  split_ifs <;> simp [le_max_left]

theorem objStep_fst_le (acc : ℚ × ℚ) (x : String × Option ℚ) : acc.1 ≤ (objStep acc x).1 := by
  unfold objStep
  dsimp only
  split_ifs <;> simp [le_max_left]

theorem foldl_arrStep_fst_le (l : List (String × ℚ)) (acc : ℚ × ℚ) :
    acc.1 ≤ (l.foldl arrStep acc).1 := by
  induction l generalizing acc with
  | nil => exact le_refl _
  | cons x xs ih => exact le_trans (arrStep_fst_le acc x) (ih _)

theorem foldl_objStep_fst_le (l : List (String × Option ℚ)) (acc : ℚ × ℚ) :
    acc.1 ≤ (l.foldl objStep acc).1 := by
  induction l generalizing acc with
  | nil => exact le_refl _
  | cons x xs ih => exact le_trans (objStep_fst_le acc x) (ih _)

theorem normalizeScores_fst_nonneg (r : RawResult) : 0 ≤ (normalizeScores r).1 := by
  unfold normalizeScores
  cases r with
  | arr items =>
    simp only
    split_ifs with h
    · norm_num
    · exact foldl_arrStep_fst_le items (0, 0)
  | obj entries =>
    simp only
    split_ifs with h
    · norm_num
    · exact foldl_objStep_fst_le entries (0, 0)
  | other =>
    simp only
    split_ifs <;> norm_num

theorem stepFrame_total_le (st : LoopState) (i : ℕ) (res : Option RawResult) :
    st.totalNsfwScore ≤ (stepFrame st i res).totalNsfwScore := by
  unfold stepFrame
  cases res with
  | none => exact le_refl _
  | some r =>
    have h := normalizeScores_fst_nonneg r
    dsimp only
    split_ifs <;> simp <;> linarith

theorem runFrames_total_le (l : List (Option RawResult)) :
    ∀ (i : ℕ) (st : LoopState),
      st.totalNsfwScore ≤ (runFrames i st l).totalNsfwScore := by
  induction l with
  | nil => intro i st; exact le_refl _
  | cons r rest ih =>
    intro i st
    exact le_trans (stepFrame_total_le st i r) (ih (i + 1) (stepFrame st i r))

theorem runFrames_total_nonneg (l : List (Option RawResult)) :
    0 ≤ (runFrames 0 initState l).totalNsfwScore :=
  runFrames_total_le l 0 initState

end VideoProc

namespace VideoProc

/-! nonDecB helpers -/

theorem nonDecB_cons_of {a : ℤ} {l : List ℤ} (h1 : ∀ b ∈ l.head?, a ≤ b)
    (h2 : nonDecB l = true) : nonDecB (a :: l) = true := by
  cases l with
  | nil => rfl
  | cons b bs =>
    have hab : a ≤ b := h1 b rfl
    simp [nonDecB, hab, h2]

theorem nonDecB_append_single {l : List ℤ} {c : ℤ} (h : nonDecB l = true)
    (h2 : ∀ x ∈ l, x ≤ c) : nonDecB (l ++ [c]) = true := by
  induction l with
  | nil => rfl
  | cons a as ih =>
    cases as with
    | nil =>
      have : a ≤ c := h2 a (by simp)
      simp [nonDecB, this]
    | cons b bs =>
      simp only [nonDecB, Bool.and_eq_true, decide_eq_true_eq] at h
      have htail := ih h.2 (fun x hx => h2 x (List.mem_cons_of_mem _ hx))
      simp only [List.cons_append] at htail ⊢
      simp [nonDecB, h.1]
      simpa [nonDecB] using htail

theorem nonDecB_map_range {f : ℕ → ℤ} (hf : ∀ i, f i ≤ f (i + 1)) (n : ℕ) :
    nonDecB ((List.range n).map f) = true := by
  induction n with
  | zero => rfl
  | succ m ih =>
    rw [List.range_succ, List.map_append]
    apply nonDecB_append_single ih
    intro x hx
    rcases List.mem_map.mp hx with ⟨i, hi, rfl⟩
    exact (monotone_nat_of_le_succ hf) (le_of_lt (List.mem_range.mp hi))

/-! runFrames helpers -/

theorem runFrames_append (l1 l2 : List (Option RawResult)) :
    ∀ (i : ℕ) (st : LoopState),
      runFrames i st (l1 ++ l2) = runFrames (i + l1.length) (runFrames i st l1) l2 := by
  induction l1 with
  | nil => intro i st; simp [runFrames]
  | cons a as ih =>
    intro i st
    have heq : i + (as.length + 1) = i + 1 + as.length := by omega
    simp only [List.cons_append, List.length_cons, runFrames, heq]
    exact ih (i + 1) (stepFrame st i a)

theorem runFrames_none (l : List (Option RawResult)) (h : ∀ x ∈ l, x = none) :
    ∀ (i : ℕ) (st : LoopState), runFrames i st l = st := by
  induction l with
  | nil => intro i st; rfl
  | cons a as ih =>
    intro i st
    have ha : a = none := h a (by simp)
    subst ha
    simp only [runFrames, stepFrame]
    exact ih (fun x hx => h x (List.mem_cons_of_mem _ hx)) (i + 1) st

end VideoProc

namespace VideoProc

/-! pipeline path lemmas -/

theorem analyzeSensitivity_real (env : Env) (frames : List (Option RawResult))
    (hkey : env.hasApiKey = true) (hframes : env.frameFiles = some frames)
    (hsucc : (runFrames 0 initState frames).apiSuccessCount ≠ 0) :
    analyzeSensitivity env =
      (Event.progress 25 .extractingFrames :: loopEvents frames.length,
       decideVerdict (runFrames 0 initState frames) frames.length) := by
  unfold analyzeSensitivity
  rw [hkey, hframes]
  simp [hsucc]

theorem processVideo_real (env : Env) (frames : List (Option RawResult))
    (hkey : env.hasApiKey = true) (hprobe : env.probeOk = true)
    (hframes : env.frameFiles = some frames)
    (hsucc : (runFrames 0 initState frames).apiSuccessCount ≠ 0) :
    processVideo env =
      { events := [Event.progress 0 .starting, Event.progress 20 .extractingMetadata,
          Event.progress 25 .extractingFrames] ++ loopEvents frames.length ++
          [Event.progress 100 .finalizing,
           Event.complete (decideVerdict (runFrames 0 initState frames) frames.length)]
        updates := [{ status := some .processing, processProgress := some 0 },
          { status := some .completed
            processProgress := some 100
            sensitivityFlag := some (decideVerdict (runFrames 0 initState frames)
              frames.length).sensitivityFlag
            metadataSet := true
            durationSet := true
            processedAtSet := true }]
        verdict := some (decideVerdict (runFrames 0 initState frames) frames.length) } := by
  unfold processVideo
  rw [hprobe, analyzeSensitivity_real env frames hkey hframes hsucc]
  simp

theorem processVideo_mockpath (env : Env)
    (hfall : env.hasApiKey = false ∨ env.frameFiles = none ∨
      (∃ frames, env.frameFiles = some frames ∧
        (runFrames 0 initState frames).apiSuccessCount = 0)) :
    (processVideo env).verdict =
      (if env.probeOk = true then some (mockVerdict env.r1 env.r2) else none) := by
  unfold processVideo analyzeSensitivity
  rcases hfall with h | h | ⟨frames, hf, hs⟩
  · rw [h]
    by_cases hp : env.probeOk = false <;> simp [hp]
  · rw [h]
    by_cases hp : env.probeOk = false <;> by_cases hk : env.hasApiKey = false <;> simp [hp, hk]
  · rw [hf]
    by_cases hp : env.probeOk = false <;> by_cases hk : env.hasApiKey = false <;>
      simp [hp, hk, hs]

theorem finalStatus_processVideo (env : Env) :
    finalStatus (processVideo env) =
      some (if env.probeOk = true then Status.completed else Status.failed) := by
  unfold processVideo
  by_cases hp : env.probeOk = false <;> simp [hp, finalStatus]

/-! decision policy bounds -/

theorem decideVerdict_confidence_bounds (st : LoopState) (n : ℕ)
    (hsucc : st.apiSuccessCount ≠ 0) (htot : 0 ≤ st.totalNsfwScore) :
    0 ≤ (decideVerdict st n).confidence ∧ (decideVerdict st n).confidence ≤ 99/100 := by
  unfold decideVerdict
  have hcast : (0 : ℚ) < (st.apiSuccessCount : ℚ) := by
    exact_mod_cast Nat.pos_of_ne_zero hsucc
  have havg : 0 ≤ st.totalNsfwScore / (st.apiSuccessCount : ℚ) :=
    div_nonneg htot (le_of_lt hcast)
  dsimp only
  split_ifs with h
  · constructor
    · apply toFixedVal_nonneg
      apply le_min _ (by norm_num)
      nlinarith [h.2]
    · exact toFixedVal3_le (min_le_right _ _)
  · constructor
    · apply toFixedVal_nonneg
      apply le_min _ (by norm_num)
      nlinarith
    · exact toFixedVal3_le (min_le_right _ _)

theorem mockVerdict_confidence_bounds (r1 r2 : ℚ) (h0 : 0 ≤ r2) (h1 : r2 < 1) :
    7/10 ≤ (mockVerdict r1 r2).confidence ∧ (mockVerdict r1 r2).confidence < 1 := by
  unfold mockVerdict
  split_ifs <;> constructor <;> simp <;> nlinarith

end VideoProc

namespace VideoProc

/-! progress trace of the real path -/

theorem progressVals_map_progress (g : ℕ → ℤ) (st : ℕ → Stage) (l : List ℕ) :
    progressVals (l.map (fun i => Event.progress (g i) (st i))) = l.map g := by
  induction l with
  | nil => rfl
  | cons a as ih =>
    simp only [List.map_cons, progressVals, List.filterMap_cons] at ih ⊢
    rw [ih]

theorem progressVals_loopEvents (n : ℕ) :
    progressVals (loopEvents n) =
      (List.range n).map (fun (i : ℕ) => jsRound (30 + (((i : ℚ) + 1) / (n : ℚ)) * 60)) := by
  unfold loopEvents
  exact progressVals_map_progress _ _ _

theorem nonDecB_realTrace (n : ℕ) :
    nonDecB (0 :: 20 :: 25 ::
      ((List.range n).map (fun (i : ℕ) => jsRound (30 + (((i : ℚ) + 1) / (n : ℚ)) * 60)) ++ [100])) =
      true := by
  set f : ℕ → ℤ := fun (i : ℕ) => jsRound (30 + (((i : ℚ) + 1) / (n : ℚ)) * 60) with hf
  have hfmono : ∀ i, f i ≤ f (i + 1) := by
    intro i
    apply jsRound_mono
    rcases Nat.eq_zero_or_pos n with hn | hn
    · subst hn
      norm_num
    · have hnq : (0 : ℚ) < (n : ℚ) := by exact_mod_cast hn
      have hd : ((i : ℚ) + 1) / (n : ℚ) ≤ (((i + 1 : ℕ) : ℚ) + 1) / (n : ℚ) := by
        rw [div_le_div_iff_of_pos_right hnq]
        push_cast
        linarith
      nlinarith [hd]
  have hge30 : ∀ i, (30 : ℤ) ≤ f i := by
    intro i
    apply le_jsRound
    have : (0 : ℚ) ≤ ((i : ℚ) + 1) / (n : ℚ) := by positivity
    nlinarith
  have hle100 : ∀ x ∈ (List.range n).map f, x ≤ (100 : ℤ) := by
    intro x hx
    rcases List.mem_map.mp hx with ⟨i, hi, rfl⟩
    have hin : i < n := List.mem_range.mp hi
    have hnq : (0 : ℚ) < (n : ℚ) := by
      exact_mod_cast Nat.pos_of_ne_zero (by omega)
    apply jsRound_le
    have hdiv : ((i : ℚ) + 1) / (n : ℚ) ≤ 1 := by
      rw [div_le_one hnq]
      exact_mod_cast hin
    nlinarith
  have hA100 : nonDecB ((List.range n).map f ++ [100]) = true := by
    apply nonDecB_append_single (nonDecB_map_range hfmono n)
    intro x hx
    exact hle100 x hx
  apply nonDecB_cons_of _ (nonDecB_cons_of _ (nonDecB_cons_of _ hA100))
  · intro b hb
    simp at hb
    omega
  · intro b hb
    simp at hb
    omega
  · intro b hb
    cases n with
    | zero =>
      simp at hb
      omega
    | succ m =>
      rw [List.range_succ_eq_map, List.map_cons] at hb
      simp only [List.cons_append, List.head?_cons, Option.mem_def, Option.some_inj] at hb
      subst hb
      exact le_trans (by norm_num) (hge30 0)

end VideoProc

namespace VideoProc

theorem isTerminal_mockEvents : ∀ e ∈ mockEvents, isTerminal e = false := by decide

theorem isTerminal_loopEvents (n : ℕ) : ∀ e ∈ loopEvents n, isTerminal e = false := by
  intro e he
  rcases List.mem_map.mp he with ⟨i, _, rfl⟩
  rfl

theorem analyzeSensitivity_no_terminal (env : Env) :
    ∀ e ∈ (analyzeSensitivity env).1, isTerminal e = false := by
  intro e he
  unfold analyzeSensitivity at he
  split at he
  · exact isTerminal_mockEvents e he
  · split at he
    · dsimp only at he
      simp only [List.mem_cons] at he
      rcases he with rfl | he
      · rfl
      · exact isTerminal_mockEvents e he
    · dsimp only at he
      split at he
      · dsimp only at he
        simp only [List.mem_append, List.mem_cons] at he
        rcases he with (rfl | he) | he
        · rfl
        · exact isTerminal_loopEvents _ e he
        · exact isTerminal_mockEvents e he
      · dsimp only at he
        simp only [List.mem_cons] at he
        rcases he with rfl | he
        · rfl
        · exact isTerminal_loopEvents _ e he

theorem terminal_processVideo (env : Env) :
    (processVideo env).events.countP (fun e => isTerminal e) = 1 ∧
    endsTerminalB (processVideo env).events = true := by
  unfold processVideo
  by_cases hp : env.probeOk = false
  · rw [if_pos hp]
    constructor
    · decide
    · decide
  · rw [if_neg hp]
    dsimp only
    constructor
    · rw [List.countP_append, List.countP_append]
      have h1 : (analyzeSensitivity env).1.countP (fun e => isTerminal e) = 0 :=
        List.countP_eq_zero.mpr (by
          intro e he
          simp [analyzeSensitivity_no_terminal env e he])
      rw [h1]
      rfl
    · unfold endsTerminalB
      rw [List.getLast?_append_of_ne_nil _ (by simp)]
      rfl

end VideoProc

namespace VideoProc

/-- C2 (amended): every run broadcasts exactly one terminal event and the
trace ends with it; on the real classification path (API key present, frame
extraction succeeded, at least one frame classified) the progress values are
non-decreasing.  On mock-fallback paths monotonicity fails (see the
counterexample): the mock restarts progress at 10. -/
theorem c2_progress_trace (env : Env) (frames : List (Option RawResult))
    (hkey : env.hasApiKey = true) (hprobe : env.probeOk = true)
    (hframes : env.frameFiles = some frames)
    (hsucc : (runFrames 0 initState frames).apiSuccessCount ≠ 0) :
    nonDecB (progressVals (processVideo env).events) = true ∧
    (∀ env2 : Env, (processVideo env2).events.countP (fun e => isTerminal e) = 1 ∧
      endsTerminalB (processVideo env2).events = true) := by
  constructor
  · rw [processVideo_real env frames hkey hprobe hframes hsucc]
    dsimp only
    have hl := progressVals_loopEvents frames.length
    unfold progressVals at hl ⊢
    rw [List.filterMap_append, List.filterMap_append, hl]
    simpa using nonDecB_realTrace frames.length
  · exact fun env2 => terminal_processVideo env2

/-- Witness for C2: the monotone-trace half applied to a concrete run with
one successfully classified frame. -/
theorem c2_witness :
    nonDecB (progressVals
      (processVideo ⟨true, true, some [some RawResult.other], 1/2, 1/2⟩).events) = true :=
  (c2_progress_trace ⟨true, true, some [some RawResult.other], 1/2, 1/2⟩
    [some RawResult.other] rfl rfl rfl
    (by norm_num [runFrames, stepFrame, normalizeScores, initState])).1

/-- Counterexample for C2 as stated: five extracted frames all fail to
classify, the loop broadcasts progress up to 90, then the mock fallback
broadcasts 10, so the progress sequence of this run is not non-decreasing. -/
theorem c2_counterexample :
    nonDecB (progressVals
      (processVideo ⟨true, true, some [none, none, none, none, none], 1/2, 1/2⟩).events) =
      false := by
  simp [processVideo, analyzeSensitivity, runFrames, stepFrame, initState,
    loopEvents, mockEvents, progressVals, nonDecB, jsRound, List.range_succ]
  norm_num

end VideoProc

namespace VideoProc

/-- C1 (amended): every verdict of the real classification path (at least one
successful frame classification) has confidence in [0, 0.99]; a mock verdict
(Math.random r2 in [0,1)) has confidence in [0.7, 1), which is NOT contained
in [0, 0.99]. -/
theorem c1_confidence_bounds :
    (∀ (env : Env) (frames : List (Option RawResult)) (v : Verdict),
        env.hasApiKey = true → env.probeOk = true → env.frameFiles = some frames →
        (runFrames 0 initState frames).apiSuccessCount ≠ 0 →
        (processVideo env).verdict = some v →
        0 ≤ v.confidence ∧ v.confidence ≤ 99/100) ∧
    (∀ r1 r2 : ℚ, 0 ≤ r2 → r2 < 1 →
        7/10 ≤ (mockVerdict r1 r2).confidence ∧ (mockVerdict r1 r2).confidence < 1) := by
  constructor
  · intro env frames v hkey hprobe hframes hsucc hv
    rw [processVideo_real env frames hkey hprobe hframes hsucc] at hv
    dsimp only at hv
    rw [Option.some_inj] at hv
    subst hv
    exact decideVerdict_confidence_bounds _ _ hsucc (runFrames_total_nonneg frames)
  · exact mockVerdict_confidence_bounds

/-- Witness for C1: the amended bounds applied on a concrete real-path run
(one successfully classified frame) and a concrete mock verdict. -/
theorem c1_witness :
    (0 ≤ (decideVerdict (runFrames 0 initState [some RawResult.other]) 1).confidence ∧
      (decideVerdict (runFrames 0 initState [some RawResult.other]) 1).confidence ≤ 99/100) ∧
    (7/10 ≤ (mockVerdict (1/2) 0).confidence ∧ (mockVerdict (1/2) 0).confidence < 1) := by
  have hsucc : (runFrames 0 initState [some RawResult.other]).apiSuccessCount ≠ 0 := by
    norm_num [runFrames, stepFrame, normalizeScores, initState]
  exact ⟨c1_confidence_bounds.1 ⟨true, true, some [some RawResult.other], 1/2, 1/2⟩
      [some RawResult.other] _ rfl rfl rfl hsucc
      (by
        rw [processVideo_real ⟨true, true, some [some RawResult.other], 1/2, 1/2⟩
          [some RawResult.other] rfl rfl rfl hsucc]
        rfl),
    c1_confidence_bounds.2 (1/2) 0 (by norm_num) (by norm_num)⟩

/-- Counterexample for C1 as stated: with the API key absent and the second
Math.random result 0.99, the pipeline's mock verdict has confidence
0.997 > 0.99, so not every verdict's confidence lies in [0, 0.99]. -/
theorem c1_counterexample :
    (processVideo ⟨false, true, none, 1/2, 99/100⟩).verdict.map Verdict.confidence =
      some (997/1000) ∧ ¬((997 : ℚ)/1000 ≤ 99/100) := by
  constructor
  · norm_num [processVideo, analyzeSensitivity, mockVerdict]
  · norm_num

/-- C3 (confirmed): on the real classification path with at least one
successful frame classification, the verdict is safe iff
flaggedFrames = 0 and averageNsfwScore < 0.5, and flagged otherwise. -/
theorem c3_safe_iff (env : Env) (frames : List (Option RawResult))
    (hkey : env.hasApiKey = true) (hprobe : env.probeOk = true)
    (hframes : env.frameFiles = some frames)
    (hsucc : (runFrames 0 initState frames).apiSuccessCount ≠ 0) :
    ∃ v, (processVideo env).verdict = some v ∧
      (v.sensitivityFlag = .safe ↔
        ((runFrames 0 initState frames).flaggedFrames = 0 ∧
         (runFrames 0 initState frames).totalNsfwScore /
           ((runFrames 0 initState frames).apiSuccessCount : ℚ) < 1/2)) ∧
      (v.sensitivityFlag = .flagged ↔
        ¬((runFrames 0 initState frames).flaggedFrames = 0 ∧
          (runFrames 0 initState frames).totalNsfwScore /
            ((runFrames 0 initState frames).apiSuccessCount : ℚ) < 1/2)) := by
  refine ⟨decideVerdict (runFrames 0 initState frames) frames.length, ?_, ?_, ?_⟩
  · rw [processVideo_real env frames hkey hprobe hframes hsucc]
  · unfold decideVerdict
    dsimp only
    split_ifs with h
    · exact iff_of_true rfl h
    · exact iff_of_false (by simp) h
  · unfold decideVerdict
    dsimp only
    split_ifs with h
    · exact iff_of_false (by simp) (not_not_intro h)
    · exact iff_of_true rfl h

/-- Witness for C3: the iff applied to a concrete run whose single frame
scores nsfw 0.4 (flaggedFrames = 0, average 0.4, hence safe). -/
theorem c3_witness :
    ∃ v, (processVideo ⟨true, true, some [some (RawResult.arr [("nsfw", 2/5)])], 1/2,
        1/2⟩).verdict = some v ∧
      (v.sensitivityFlag = .safe ↔
        ((runFrames 0 initState [some (RawResult.arr [("nsfw", 2/5)])]).flaggedFrames = 0 ∧
         (runFrames 0 initState [some (RawResult.arr [("nsfw", 2/5)])]).totalNsfwScore /
           ((runFrames 0 initState [some (RawResult.arr [("nsfw", 2/5)])]).apiSuccessCount : ℚ) <
           1/2)) ∧
      (v.sensitivityFlag = .flagged ↔
        ¬((runFrames 0 initState [some (RawResult.arr [("nsfw", 2/5)])]).flaggedFrames = 0 ∧
          (runFrames 0 initState [some (RawResult.arr [("nsfw", 2/5)])]).totalNsfwScore /
            ((runFrames 0 initState [some (RawResult.arr [("nsfw", 2/5)])]).apiSuccessCount : ℚ) <
            1/2)) :=
  c3_safe_iff ⟨true, true, some [some (RawResult.arr [("nsfw", 2/5)])], 1/2, 1/2⟩
    [some (RawResult.arr [("nsfw", 2/5)])] rfl rfl rfl
    (by
      have hns : normalizeScores (RawResult.arr [("nsfw", 2/5)]) = (2/5, 0) := by
        simp [normalizeScores, arrStep, lowerStr, lowerChar, includesB, substrB, leadMatchB]
        norm_num
      norm_num [runFrames, stepFrame, initState, hns])

end VideoProc

namespace VideoProc

/-- C5 (confirmed): whenever the classifier credentials are absent, frame
extraction fails, or zero frames classify successfully, the run falls back to
the mock classifier and still persists status completed, with a safe/flagged
verdict whose confidence lies in [0.7, 1]. -/
theorem c5_mock_fallback (env : Env) (hprobe : env.probeOk = true)
    (hr0 : 0 ≤ env.r2) (hr1 : env.r2 < 1)
    (hfall : env.hasApiKey = false ∨ env.frameFiles = none ∨
      (∃ frames, env.frameFiles = some frames ∧
        (runFrames 0 initState frames).apiSuccessCount = 0)) :
    finalStatus (processVideo env) = some .completed ∧
    (processVideo env).verdict = some (mockVerdict env.r1 env.r2) ∧
    ((mockVerdict env.r1 env.r2).sensitivityFlag = .safe ∨
     (mockVerdict env.r1 env.r2).sensitivityFlag = .flagged) ∧
    7/10 ≤ (mockVerdict env.r1 env.r2).confidence ∧
    (mockVerdict env.r1 env.r2).confidence ≤ 1 := by
  refine ⟨?_, ?_, ?_, ?_, ?_⟩
  · rw [finalStatus_processVideo, hprobe]
    rfl
  · rw [processVideo_mockpath env hfall, if_pos hprobe]
  · unfold mockVerdict
    split_ifs <;> simp
  · exact (mockVerdict_confidence_bounds env.r1 env.r2 hr0 hr1).1
  · exact le_of_lt (mockVerdict_confidence_bounds env.r1 env.r2 hr0 hr1).2

/-- Witness for C5: the fallback guarantee applied to a concrete run with no
API key configured. -/
theorem c5_witness :
    finalStatus (processVideo ⟨false, true, none, 1/2, 1/2⟩) = some .completed ∧
    (processVideo ⟨false, true, none, 1/2, 1/2⟩).verdict =
      some (mockVerdict (1/2) (1/2)) ∧
    ((mockVerdict (1/2 : ℚ) (1/2)).sensitivityFlag = .safe ∨
     (mockVerdict (1/2 : ℚ) (1/2)).sensitivityFlag = .flagged) ∧
    7/10 ≤ (mockVerdict (1/2 : ℚ) (1/2)).confidence ∧
    (mockVerdict (1/2 : ℚ) (1/2)).confidence ≤ 1 :=
  c5_mock_fallback ⟨false, true, none, 1/2, 1/2⟩ rfl (by norm_num) (by norm_num)
    (Or.inl rfl)

/-- C6 (confirmed): if exactly one frame classifies successfully with
nsfwScore 0.8 and all others fail, the verdict is flagged with
averageNsfwScore 0.8 and confidence exactly 0.88 = min(0.8*1.1, 0.99) after
the toFixed(3) rounding. -/
theorem c6_single_success (env : Env) (pre post : List (Option RawResult)) (r : RawResult)
    (hkey : env.hasApiKey = true) (hprobe : env.probeOk = true)
    (hframes : env.frameFiles = some (pre ++ some r :: post))
    (hpre : ∀ x ∈ pre, x = none) (hpost : ∀ x ∈ post, x = none)
    (hscore : (normalizeScores r).1 = 8/10) :
    (processVideo env).verdict = some
      { sensitivityFlag := .flagged
        confidence := 88/100
        detectedIssues := [Issue.frameIssue (pre.length + 1) (8/10)]
        details := some ⟨(pre ++ some r :: post).length, 1, 1, 8/10⟩ } := by
  have hstep : stepFrame initState pre.length (some r) =
      ⟨1, 8/10, [Issue.frameIssue (pre.length + 1) (8/10)], 1⟩ := by
    unfold stepFrame
    dsimp only
    rw [hscore]
    rw [if_pos (by norm_num)]
    simp [initState]
  have hrun : runFrames 0 initState (pre ++ some r :: post) =
      ⟨1, 8/10, [Issue.frameIssue (pre.length + 1) (8/10)], 1⟩ := by
    rw [runFrames_append, runFrames_none pre hpre]
    show runFrames (0 + pre.length) initState (some r :: post) = _
    simp only [runFrames, Nat.zero_add]
    rw [hstep, runFrames_none post hpost]
  have hsucc : (runFrames 0 initState (pre ++ some r :: post)).apiSuccessCount ≠ 0 := by
    rw [hrun]
    simp
  rw [processVideo_real env _ hkey hprobe hframes hsucc]
  dsimp only
  rw [hrun]
  unfold decideVerdict
  dsimp only
  rw [if_neg (by norm_num)]
  norm_num [toFixedVal, jsRound]

/-- Witness for C6: five frames, only the second classifies (nsfw 0.8). -/
theorem c6_witness :
    (processVideo ⟨true, true,
        some [none, some (RawResult.arr [("nsfw", 8/10)]), none, none, none],
        1/2, 1/2⟩).verdict = some
      { sensitivityFlag := .flagged
        confidence := 88/100
        detectedIssues := [Issue.frameIssue 2 (8/10)]
        details := some ⟨5, 1, 1, 8/10⟩ } := by
  have h := c6_single_success
    ⟨true, true, some [none, some (RawResult.arr [("nsfw", 8/10)]), none, none, none], 1/2, 1/2⟩
    [none] [none, none, none] (RawResult.arr [("nsfw", 8/10)]) rfl rfl rfl
    (by intro x hx; simpa using hx)
    (by intro x hx; simp at hx; exact hx)
    (by
      simp [normalizeScores, arrStep, lowerStr, lowerChar, includesB, substrB, leadMatchB]
      norm_num)
  simpa using h

end VideoProc

namespace VideoProc

/-- C4 (amended): fps is the numeric division of the rational r_frame_rate
string (30000/1001 gives the exact rational 30000/1001); an absent or empty
field defaults to eval of the string 0, i.e. fps 0; but a malformed field
such as N/A makes eval throw instead of yielding 0. -/
theorem c4_fps_eval :
    (getVideoMetadata ⟨[⟨"video", some 640, some 480, some "30000/1001", some "h264"⟩],
        some 10, some 1200⟩).fps = .num (30000/1001) ∧
    (getVideoMetadata ⟨[⟨"video", some 640, some 480, none, some "h264"⟩],
        some 10, some 1200⟩).fps = .num 0 ∧
    (getVideoMetadata ⟨[⟨"video", some 640, some 480, some "", some "h264"⟩],
        some 10, some 1200⟩).fps = .num 0 ∧
    (getVideoMetadata ⟨[⟨"video", some 640, some 480, some "N/A", some "h264"⟩],
        some 10, some 1200⟩).fps = .thrown := by
  have e1 : jsEval "30000/1001" = .num ((30000 : ℚ) / 1001) := by
    have h : splitSlash "30000/1001".data = ["30000".data, "1001".data] := by decide
    have h1 : parseNatL "30000".data = some 30000 := by decide
    have h2 : parseNatL "1001".data = some 1001 := by decide
    rw [jsEval, h]
    simp [h1, h2]
  have e2 : jsEval "0" = .num 0 := by
    have h : splitSlash "0".data = ["0".data] := by decide
    have h1 : parseNatL "0".data = some 0 := by decide
    rw [jsEval, h]
    simp [h1]
  have e3 : jsEval "N/A" = .thrown := by decide
  refine ⟨?_, ?_, ?_, ?_⟩
  · simp [getVideoMetadata, List.find?, orZeroStr, e1]
  · simp [getVideoMetadata, List.find?, orZeroStr, e2]
  · simp [getVideoMetadata, List.find?, orZeroStr, e2]
  · simp [getVideoMetadata, List.find?, orZeroStr, e3]

/-- Counterexample for C4 as stated: for the malformed r_frame_rate N/A the
fps field is not 0 - the eval call throws. -/
theorem c4_counterexample :
    (getVideoMetadata ⟨[⟨"video", some 640, some 480, some "N/A", some "h264"⟩],
        some 10, some 1200⟩).fps ≠ .num 0 := by
  have e3 : jsEval "N/A" = .thrown := by decide
  simp [getVideoMetadata, List.find?, orZeroStr, e3]

/-- C7 (amended): the flat-mapping normalization branch matches only the
keywords nsfw/unsafe/sexual (to nsfwScore via max) and safe/normal (to
normalScore via max); every other label - including the remaining unsafe
keywords porn/adult/explicit/nude/erotic and the ambiguous
bikini/underwear/swimsuit - contributes nothing in this branch. -/
theorem c7_obj_vocab (acc : ℚ × ℚ) (label : String) (v : ℚ) :
    ((includesB (lowerStr label) "nsfw" || includesB (lowerStr label) "unsafe" ||
      includesB (lowerStr label) "sexual") = true →
       objStep acc (label, some v) = (max acc.1 v, acc.2)) ∧
    ((includesB (lowerStr label) "nsfw" || includesB (lowerStr label) "unsafe" ||
      includesB (lowerStr label) "sexual") = false →
     (includesB (lowerStr label) "safe" || includesB (lowerStr label) "normal") = true →
       objStep acc (label, some v) = (acc.1, max acc.2 v)) ∧
    ((includesB (lowerStr label) "nsfw" || includesB (lowerStr label) "unsafe" ||
      includesB (lowerStr label) "sexual") = false →
     (includesB (lowerStr label) "safe" || includesB (lowerStr label) "normal") = false →
       objStep acc (label, some v) = acc) := by
  refine ⟨?_, ?_, ?_⟩
  · intro h
    unfold objStep
    dsimp only
    rw [if_pos h]
  · intro h1 h2
    unfold objStep
    dsimp only
    rw [if_neg (by simp [h1]), if_pos h2]
  · intro h1 h2
    unfold objStep
    dsimp only
    rw [if_neg (by simp [h1]), if_neg (by simp [h2])]

/-- Witness for C7: concrete labels - porn and bikini are ignored by the
flat-mapping branch, nsfw contributes via max. -/
theorem c7_witness :
    objStep (0, 0) ("porn", some (9/10)) = (0, 0) ∧
    objStep (0, 0) ("nsfw", some (9/10)) = (max 0 (9/10), 0) ∧
    objStep (0, 0) ("bikini", some (9/10)) = (0, 0) :=
  ⟨(c7_obj_vocab (0, 0) "porn" (9/10)).2.2 (by decide) (by decide),
   (c7_obj_vocab (0, 0) "nsfw" (9/10)).1 (by decide),
   (c7_obj_vocab (0, 0) "bikini" (9/10)).2.2 (by decide) (by decide)⟩

/-- Counterexample for C7 as stated: the flat mapping (porn : 0.9) yields
nsfwScore 0 (the branch does not test the porn keyword), while the
list-of-pairs form of the same data yields nsfwScore 0.9 - the two branches
do not apply the same vocabulary. -/
theorem c7_counterexample :
    (normalizeScores (.obj [("porn", some (9/10))])).1 = 0 ∧
    (normalizeScores (.arr [("porn", 9/10)])).1 = 9/10 := by
  constructor
  · simp [normalizeScores, objStep, lowerStr, lowerChar, includesB, substrB, leadMatchB]
  · simp [normalizeScores, arrStep, lowerStr, lowerChar, includesB, substrB, leadMatchB]
    norm_num

end VideoProc

namespace VideoProc

/-- C8 (amended): processedAt is written exactly once on runs that reach
completed, by the completed update, and is never written by any update whose
status is not completed - in particular the failed transition does not set
it. -/
theorem c8_processedAt (env : Env) :
    (processVideo env).updates.countP (fun u => u.processedAtSet) =
      (if env.probeOk = true then 1 else 0) ∧
    (processVideo env).updates.countP
      (fun u => u.processedAtSet && !(u.status == some Status.completed)) = 0 := by
  unfold processVideo
  by_cases hp : env.probeOk = false
  · rw [if_pos hp, hp]
    constructor
    · decide
    · decide
  · have hp2 : env.probeOk = true := by
      revert hp
      cases env.probeOk <;> simp
    rw [if_neg hp, hp2]
    constructor
    · rfl
    · rfl

/-- Counterexample for C8 as stated: a run whose metadata probe fails ends
failed, yet no update of the run ever sets processedAt - the failed
transition does not set it. -/
theorem c8_counterexample :
    finalStatus (processVideo ⟨true, false, some [], 1/2, 1/2⟩) = some Status.failed ∧
    (processVideo ⟨true, false, some [], 1/2, 1/2⟩).updates.countP
      (fun u => u.processedAtSet) = 0 := by
  constructor
  · decide
  · decide

/-- C9 (confirmed): on a pipeline failure the final update sets only
status = failed and errorMessage; processProgress, sensitivityFlag, metadata,
duration and processedAt are all untouched by it. -/
theorem c9_failed_update_minimal (env : Env) :
    (processVideo { env with probeOk := false }).updates =
      [{ status := some Status.processing, processProgress := some 0 },
       { status := some Status.failed, errorMessageSet := true }] := by
  unfold processVideo
  rw [if_pos rfl]

/-- C10 (amended): the persisted processProgress writes of a run are exactly
[0, 100] when the run completes and exactly [0] when it fails; intermediate
progress values are only broadcast, never persisted, so a mid-run reader of
the store always sees 0. -/
theorem c10_progress_writes (env : Env) :
    progressWrites (processVideo env) =
      (if env.probeOk = true then [0, 100] else [0]) := by
  unfold processVideo progressWrites
  by_cases hp : env.probeOk = false
  · rw [if_pos hp, hp]
    decide
  · have hp2 : env.probeOk = true := by
      revert hp
      cases env.probeOk <;> simp
    rw [if_neg hp, hp2]
    rfl

/-- Counterexample for C10 as stated: a failing run writes processProgress
once (the value 0), not exactly twice. -/
theorem c10_counterexample :
    (progressWrites (processVideo ⟨true, false, some [], 1/2, 1/2⟩)).length = 1 := by
  decide

end VideoProc
